import Mathlib

/-!
Shallow embedding of the `threads-tracker` repository.

The repository contains three historical snapshots of the same program:
- `src/task.py`, `src/thread/{task,thread}.py`, `src/time/{time,util}.py`
  (older snapshots), and
- `src/threads/{task,thread}.py`, `src/timemap/{time,util}.py`,
  `src/managers.py` (the current snapshot).

Conventions of the embedding:
- `Datetime` values (timezone-aware instants) are modelled as `Int`
  (seconds relative to an arbitrary epoch); `Timedelta` values as `Int`
  seconds.  The textual `YYYY-MM-DD HH:MM:SS+HHMM` JSON encoding of an
  instant is injective over the supported range, so a JSON-encoded
  instant is modelled by the instant itself (constructor `JVal.jtime`).
- Python `None` is the `none` of an `Option`.
- A mutating method that can raise is modelled as a function returning
  `α × Option PyErr`: the first component is the state of the object
  after the call (unchanged when an exception is raised before any
  assignment, exactly as in the source), the second the raised
  exception, if any.  Methods whose exceptions abort a larger
  computation are modelled in `Except PyErr`.
- `importance` is a Python float; it is modelled as `ℚ` (no float
  arithmetic is performed on it anywhere in the source, only
  comparisons and storage).
- `uuid.uuid4()` draws a fresh random uid; the model takes uids as
  plain `Nat` data and models a fresh draw as `0` in the one place
  (`from_json` with no `uid` key) where its value is never observed by
  any claim.
-/

/-- Python exceptions raised by the embedded code, with the message (or
the standard-library exception class) they carry in the source. -/
inductive PyErr where
  /-- a bare `Exception(msg)` -/
  | exc (msg : String)
  /-- a `KeyError(msg)` -/
  | keyError (msg : String)
  /-- a `TypeError` -/
  | typeError (msg : String)
  /-- an `AttributeError` -/
  | attributeError (msg : String)
  /-- a `FileNotFoundError` -/
  | fileNotFound (msg : String)
  deriving Repr, DecidableEq

/-- JSON values as manipulated by the repository's serializers.
`jtime` is a JSON string holding the `YYYY-MM-DD HH:MM:SS+HHMM`
rendering of an instant, `jdur` a JSON number holding a duration in
seconds, `juid` a JSON string holding the textual form of a UUID. -/
inductive JVal where
  | jnull
  | jbool (b : Bool)
  | jint (i : Int)
  | jnum (q : ℚ)
  | jstr (s : String)
  | jtime (i : Int)
  | jdur (i : Int)
  | juid (n : Nat)
  | jarr (xs : List JVal)
  | jobj (fields : List (String × JVal))

/-- Look a key up in a JSON object's field list: Python `d.get(k, None)`. -/
def jget (fields : List (String × JVal)) (k : String) : Option JVal :=
  match fields with
  | [] => none
  | (k', v) :: rest => if k' = k then some v else jget rest k

namespace Timemap

/-- `timemap/util.py`, `Datetime.from_json` (`strptime`): decoding the
textual instant.  The source calls it on `d.get(key, None)`; on `None`
(or any non-string) `strptime` raises a `TypeError`. -/
def Datetime.from_json : Option JVal → Except PyErr Int
  | some (.jtime i) => .ok i
  | _ => .error (.typeError "strptime() argument 1 must be str")

/-- `timemap/util.py`, the instant serializer.  The source defines it
under the name `for_json` while `threads/task.py` invokes it as
`to_json`; the serialization itself (the formatted string, here the
instant it denotes) is as in `for_json`, with `None` encoded as JSON
null per `DatetimeJSONEncoder.default`. -/
def Datetime.to_json : Option Int → JVal
  | none => .jnull
  | some i => .jtime i

end Timemap

namespace Threads

/-- `threads/task.py`, class `Task` (the base, non-repeatable task).
`uid` is assigned from `uuid.uuid4()` at construction; `completed` is
initialized `False`. -/
structure Task where
  uid : Nat
  name : String
  start_time : Option Int
  end_time : Option Int
  importance : ℚ
  partial_completion : Bool
  max_divisions : Int
  thread_name : Option String
  completed : Bool
  deriving Repr, DecidableEq

/-- `threads/task.py` lines 153-169, `Task.change_time`.  Returns the
task after the call together with the raised exception, if any; the
`raise` in the source happens before either assignment, so on failure
the task is returned unchanged. -/
def Task.change_time (t : Task) (new_start_time : Int)
    (new_end_time : Option Int) : Task × Option PyErr :=
  match new_end_time with
  | some e =>
      if new_start_time > e then
        (t, some (.exc "Invalid time range for task. "))
      else
        ({ t with start_time := some new_start_time, end_time := some e }, none)
  | none =>
      match t.end_time, t.start_time with
      | some oldEnd, some oldStart =>
          ({ t with start_time := some new_start_time,
                    end_time := some (new_start_time + (oldEnd - oldStart)) }, none)
      | some _, none =>
          -- `new_start_time + (self.end_time - self.start_time)` with
          -- `start_time = None`: datetime minus None raises TypeError
          (t, some (.typeError "unsupported operand type(s) for -"))
      | none, _ =>
          ({ t with start_time := some new_start_time, end_time := none }, none)

/-- `threads/task.py` lines 179-184, the `importance` property setter. -/
def Task.set_importance (t : Task) (new_importance : ℚ) :
    Task × Option PyErr :=
  if 0 ≤ new_importance ∧ new_importance ≤ 10 then
    ({ t with importance := new_importance }, none)
  else
    (t, some (.exc "Invalid importance for task. "))

/-- `threads/task.py` lines 190-194, `Task.complete`. -/
def Task.complete (t : Task) : Task :=
  { t with completed := true }

/-- `threads/task.py` lines 196-205, `Task.is_done`.  `now` is the
current instant (`Datetime.now(self.end_time.tzinfo)`). -/
def Task.is_done (t : Task) (now : Int) : Bool :=
  match t.end_time with
  | some e => if e < now then true else t.completed
  | none => t.completed

/-- `timemap/time.py` lines 22-37, class `TimeChunk`. -/
structure TimeChunk where
  start_time : Int
  duration : Int
  deriving Repr, DecidableEq

/-- `threads/task.py` lines 459-470, class `Event.EventRepeat`
(a `RepeatableTask.TaskRepeat` carrying the appointments list, which
`__init__` creates when `repeat` is true).  A Python `repeat` attribute
holding the bool `False` (the constructors' default) is modelled as
`none` at the task level; an `EventRepeat` object is `some`, and its
truthiness (`TaskRepeat.__bool__`) is its `repeat` field. -/
structure EventRepeat where
  repeating : Bool
  period : Option Int
  start_time : Option Int
  end_time : Option Int
  appointments : List TimeChunk
  deriving Repr, DecidableEq

/-- `threads/task.py`, class `Event` (a `RepeatableTask`).  The fields
`start_time_attr`, `end_time_attr` and `appointments_attr` are the
underscored instance attributes `_start_time`, `_end_time` and
`_appointments`; `Event.__init__` initializes `_appointments = None`. -/
structure Event where
  uid : Nat
  name : String
  repeat_obj : Option EventRepeat
  start_time_attr : Option Int
  end_time_attr : Option Int
  importance : ℚ
  partial_completion : Bool
  max_divisions : Int
  thread_name : Option String
  completed : Bool
  appointments_attr : Option (List TimeChunk)
  deriving Repr, DecidableEq

/-- `threads/task.py` lines 354-366, the `start_time` property of a
repeatable task: reads the repeat object's `start_time` when the task
is repeating (`if self.repeat:`), else the instance attribute. -/
def Event.start_time (e : Event) : Option Int :=
  match e.repeat_obj with
  | some r => if r.repeating then r.start_time else e.start_time_attr
  | none => e.start_time_attr

/-- `threads/task.py` lines 383-395, the `end_time` property. -/
def Event.end_time (e : Event) : Option Int :=
  match e.repeat_obj with
  | some r => if r.repeating then r.end_time else e.end_time_attr
  | none => e.end_time_attr

/-- `threads/task.py` lines 528-537, the `appointments` property. -/
def Event.appointments (e : Event) : Option (List TimeChunk) :=
  match e.repeat_obj with
  | some r => if r.repeating then some r.appointments else e.appointments_attr
  | none => e.appointments_attr

/-- `threads/task.py` lines 539-555, `Event.add_appointment`.  Failures
(`raise`) occur before the `append`, so the event is returned
unchanged on failure. -/
def Event.add_appointment (e : Event) (appointment : TimeChunk) :
    Event × Option PyErr :=
  match e.start_time with
  | none => (e, some (.exc "Invalid appointment: task start time not set"))
  | some st =>
      match e.repeat_obj with
      | some r =>
          if r.repeating then
            match r.period with
            | none =>
                -- `self.start_time + self.repeat.period` with `period = None`
                (e, some (.typeError "unsupported operand type(s) for +"))
            | some p =>
                if appointment.start_time > st + p then
                  (e, some (.exc "Invalid appointment: time not within period"))
                else
                  let r2 := { r with appointments := r.appointments ++ [appointment] }
                  ({ e with repeat_obj := some r2 }, none)
          else
            match e.appointments_attr with
            | none => (e, some (.attributeError
                "NoneType object has no attribute append"))
            | some l =>
                ({ e with appointments_attr := some (l ++ [appointment]) }, none)
      | none =>
          match e.appointments_attr with
          | none => (e, some (.attributeError
              "NoneType object has no attribute append"))
          | some l =>
              ({ e with appointments_attr := some (l ++ [appointment]) }, none)

/-- `threads/task.py` lines 609-616, class `Assignment.AssignmentRepeat`
(carries the per-period deadlines list). -/
structure AssignmentRepeat where
  repeating : Bool
  period : Option Int
  start_time : Option Int
  end_time : Option Int
  deadlines : List Int
  deriving Repr, DecidableEq

/-- `threads/task.py`, class `Assignment` (a `RepeatableTask`).
`deadlines_attr` is the instance attribute `_deadlines`, initialized to
the empty list by `__init__`. -/
structure Assignment where
  uid : Nat
  name : String
  repeat_obj : Option AssignmentRepeat
  start_time_attr : Option Int
  end_time_attr : Option Int
  importance : ℚ
  partial_completion : Bool
  max_divisions : Int
  thread_name : Option String
  completed : Bool
  deadlines_attr : List Int
  expected_duration : Option Int
  deriving Repr, DecidableEq

/-- The `start_time` property (`threads/task.py` lines 354-366) read on
an `Assignment`. -/
def Assignment.start_time (a : Assignment) : Option Int :=
  match a.repeat_obj with
  | some r => if r.repeating then r.start_time else a.start_time_attr
  | none => a.start_time_attr

/-- The `end_time` property (`threads/task.py` lines 383-395) read on
an `Assignment`. -/
def Assignment.end_time (a : Assignment) : Option Int :=
  match a.repeat_obj with
  | some r => if r.repeating then r.end_time else a.end_time_attr
  | none => a.end_time_attr

/-- `threads/task.py` lines 679-688, the `deadlines` property. -/
def Assignment.deadlines (a : Assignment) : List Int :=
  match a.repeat_obj with
  | some r => if r.repeating then r.deadlines else a.deadlines_attr
  | none => a.deadlines_attr

/-- `threads/task.py` lines 690-706, `Assignment.add_deadline`. -/
def Assignment.add_deadline (a : Assignment) (deadline : Int) :
    Assignment × Option PyErr :=
  match a.start_time with
  | none => (a, some (.exc "Invalid deadline: task start time not set"))
  | some st =>
      match a.repeat_obj with
      | some r =>
          if r.repeating then
            match r.period with
            | none =>
                (a, some (.typeError "unsupported operand type(s) for +"))
            | some p =>
                if deadline > st + p then
                  (a, some (.exc "Invalid deadline: time not within period"))
                else
                  let r2 := { r with deadlines := r.deadlines ++ [deadline] }
                  ({ a with repeat_obj := some r2 }, none)
          else
            ({ a with deadlines_attr := a.deadlines_attr ++ [deadline] }, none)
      | none =>
          ({ a with deadlines_attr := a.deadlines_attr ++ [deadline] }, none)

/-- `threads/task.py` lines 716-725, `Assignment.is_done`.  The body
reads `self.end_time` (through the repeat-aware property), exactly as
the inherited `Task.is_done` does; the `deadlines` of the assignment
are not consulted. -/
def Assignment.is_done (a : Assignment) (now : Int) : Bool :=
  match a.end_time with
  | some e => if e < now then true else a.completed
  | none => a.completed

/-- `timemap/util.py`, the duration serializer (`for_json`, the number
of seconds), with `None` encoded as null per `TimedeltaJSONEncoder`. -/
def Timedelta.to_json : Option Int → JVal
  | none => .jnull
  | some i => .jdur i

/-- `threads/task.py` lines 97-121, `Task.to_json`.  The dictionary in
source order; note that `completed` is not among the emitted keys.
The instant fields are written through the `timemap/util.py` serializer
(see `Timemap.Datetime.to_json` on the `to_json`/`for_json` naming). -/
def Task.to_json (t : Task) : JVal :=
  .jobj [("uid", .juid t.uid),
         ("name", .jstr t.name),
         ("start_time", Timemap.Datetime.to_json t.start_time),
         ("end_time", Timemap.Datetime.to_json t.end_time),
         ("importance", .jnum t.importance),
         ("partial_completion", .jbool t.partial_completion),
         ("max_divisions", .jint t.max_divisions),
         ("thread_name", match t.thread_name with
                         | none => .jnull
                         | some s => .jstr s)]

/-- The parameter names accepted by `Task.__init__`
(`threads/task.py` lines 36-43). -/
def taskParamKeys : List String :=
  ["name", "start_time", "end_time", "importance",
   "partial_completion", "max_divisions", "thread_name"]

/-- `threads/task.py` lines 123-151, `Task.json_to_dict` followed by
`Task.from_json`.  `json_to_dict` replaces the `start_time` and
`end_time` entries by `Datetime.from_json(d.get(key, None))`, which
raises a `TypeError` when the entry is absent or null (`strptime` on
`None`).  `from_json` pops `uid` and calls `cls(**kwargs)`: a key of
the dictionary that is not an `__init__` parameter raises a
`TypeError` (unexpected keyword argument).  `__init__` stores the
fields, sets `completed = False`, and calls `change_time` (whose
exceptions propagate); the decoded `uid` then overwrites the fresh
one.  Branches marked `model:` reject entries whose JSON type differs
from the one every serializer in the repository produces; no input
considered in this development reaches them. -/
def Task.from_json (j : JVal) : Except PyErr Task :=
  match j with
  | .jobj d => do
      let st ← Timemap.Datetime.from_json (jget d "start_time")
      let et ← Timemap.Datetime.from_json (jget d "end_time")
      if (d.map Prod.fst).all
          (fun k => k == "uid" || taskParamKeys.contains k) then
        let name ← match jget d "name" with
          | some (.jstr s) => .ok s
          | none => .error (.typeError
              "missing a required argument: name")
          | some _ => .error (.typeError "model: ill-typed name")
        let imp ← match jget d "importance" with
          | some (.jnum q) => .ok q
          | none => .ok 5
          | some _ => .error (.typeError "model: ill-typed importance")
        let pc ← match jget d "partial_completion" with
          | some (.jbool b) => .ok b
          | none => .ok false
          | some _ => .error (.typeError
              "model: ill-typed partial_completion")
        let md ← match jget d "max_divisions" with
          | some (.jint i) => .ok i
          | none => .ok (-1)
          | some _ => .error (.typeError "model: ill-typed max_divisions")
        let tn ← match jget d "thread_name" with
          | some (.jstr s) => .ok (some s)
          | some .jnull => .ok none
          | none => .ok none
          | some _ => .error (.typeError "model: ill-typed thread_name")
        let base : Task :=
          { uid := 0, name := name, start_time := none, end_time := none,
            importance := imp, partial_completion := pc,
            max_divisions := md, thread_name := tn, completed := false }
        let (t1, raised) := base.change_time st (some et)
        match raised with
        | some er => .error er
        | none =>
            let uid ← match jget d "uid" with
              | some (.juid n) => .ok n
              | some .jnull => .ok 0
              | none => .ok 0
              | some _ => .error (.typeError "model: ill-typed uid")
            .ok { t1 with uid := uid }
      else
        .error (.typeError "unexpected keyword argument")
  | _ => .error (.typeError "model: task json must be an object")

/-- `timemap/time.py` lines 39-57, `TimeChunkJSONEncoder.default`. -/
def TimeChunk.to_json (c : TimeChunk) : JVal :=
  .jobj [("start_time", .jtime c.start_time), ("duration", .jdur c.duration)]

/-- `threads/task.py` lines 272-286 and 472-483,
`TaskRepeat.to_json` refined by `EventRepeat.to_json`: a non-repeating
repeat object serializes as the JSON bool `false` (`if not self:
return False`); a repeating one as the dictionary of its fields plus
the appointments list. -/
def EventRepeat.to_json (r : EventRepeat) : JVal :=
  if r.repeating then
    .jobj [("repeat", .jbool true),
           ("period", Timedelta.to_json r.period),
           ("start_time", Timemap.Datetime.to_json r.start_time),
           ("end_time", Timemap.Datetime.to_json r.end_time),
           ("appointments", .jarr (r.appointments.map TimeChunk.to_json))]
  else
    .jbool false

/-- `threads/task.py` lines 328-335 (`RepeatableTask.to_json`) and
503-510 (`Event.to_json`): the base `Task.to_json` dictionary built
from the repeat-aware properties, then the `repeat` entry
(`self.repeat.to_json()` - an `AttributeError` when the attribute holds
the plain bool `False`, its constructor default), then
`encoded['type'] = 'event'`. -/
def Event.to_json (e : Event) : Except PyErr JVal :=
  match e.repeat_obj with
  | none => .error (.attributeError "bool object has no attribute to_json")
  | some r =>
      .ok (.jobj [("uid", .juid e.uid),
                  ("name", .jstr e.name),
                  ("start_time", Timemap.Datetime.to_json e.start_time),
                  ("end_time", Timemap.Datetime.to_json e.end_time),
                  ("importance", .jnum e.importance),
                  ("partial_completion", .jbool e.partial_completion),
                  ("max_divisions", .jint e.max_divisions),
                  ("thread_name", match e.thread_name with
                                  | none => .jnull
                                  | some s => .jstr s),
                  ("repeat", EventRepeat.to_json r),
                  ("type", .jstr "event")])

/-- `threads/task.py` lines 485-501, `Event.EventRepeat.json_to_dict`
reached through `TaskRepeat.from_json`: the method is a
`@staticmethod` whose body begins with a zero-argument `super()`
call, which raises a `TypeError` in a static method (there is no
instance for `super()` to bind); decoding the `repeat` entry of an
event therefore fails on every input. -/
def EventRepeat.from_json (_j : JVal) : Except PyErr EventRepeat :=
  .error (.typeError
    "super(type, obj): obj must be an instance or subtype of type")

/-- `threads/task.py` lines 631-647,
`Assignment.AssignmentRepeat.json_to_dict`: the same `@staticmethod`
zero-argument `super()` slip as `EventRepeat.json_to_dict`. -/
def AssignmentRepeat.from_json (_j : JVal) : Except PyErr AssignmentRepeat :=
  .error (.typeError
    "super(type, obj): obj must be an instance or subtype of type")

/-- `threads/task.py` lines 512-526 (`Event.json_to_dict`) and 137-151
(`Task.from_json` with `cls = Event`): `Task.json_to_dict` decodes the
two instants, then `d['repeat'] = Event.EventRepeat.from_json(
d.get('repeat', False))` - which raises on every input (see
`EventRepeat.from_json`).  Were that repaired, `cls(**kwargs)` would
still raise a `TypeError`: the serialized `type` entry is never
removed from the dictionary and `Event.__init__` accepts no such
keyword. -/
def Event.from_json (j : JVal) : Except PyErr Event :=
  match j with
  | .jobj d => do
      let _st ← Timemap.Datetime.from_json (jget d "start_time")
      let _et ← Timemap.Datetime.from_json (jget d "end_time")
      let _r ← EventRepeat.from_json ((jget d "repeat").getD (.jbool false))
      .error (.typeError "unreachable: EventRepeat.from_json always raises")
  | _ => .error (.typeError "model: event json must be an object")

/-- `threads/task.py` lines 660-677 (`Assignment.json_to_dict`) and
137-151 (`Task.from_json` with `cls = Assignment`): fails on every
input exactly as `Event.from_json` does (via
`AssignmentRepeat.from_json`, and otherwise on the retained `type`
key). -/
def Assignment.from_json (j : JVal) : Except PyErr Assignment :=
  match j with
  | .jobj d => do
      let _st ← Timemap.Datetime.from_json (jget d "start_time")
      let _et ← Timemap.Datetime.from_json (jget d "end_time")
      let _r ← AssignmentRepeat.from_json ((jget d "repeat").getD (.jbool false))
      .error (.typeError "unreachable: AssignmentRepeat.from_json always raises")
  | _ => .error (.typeError "model: assignment json must be an object")

/-- `threads/thread.py` lines 16-32, class `Thread`.  `tasks` is a
plain Python list (`self.tasks = []`), so it can hold several tasks
with the same uid.  (In the model it holds base `Task` values: the
only elements any computation in this development ever appends.) -/
structure Thread where
  name : String
  default_importance : Int
  tasks : List Task
  deriving Repr, DecidableEq

/-- Adding one task to a Python set of tasks: a no-op when a task of
the same uid is already present (`Task.__eq__`/`__hash__`,
`threads/task.py` lines 73-95, compare uids only). -/
def pyInsert (acc : List Task) (x : Task) : List Task :=
  if acc.any (fun y => y.uid == x.uid) then acc else acc ++ [x]

/-- Python `set(xs)` over tasks, as built by `Thread.__ior__`:
iterates the list, keeping the first element of each uid.  The
iteration order of a Python set is hash-dependent; the model keeps
insertion order, which denotes the same set of tasks. -/
def pySet (xs : List Task) : List Task :=
  xs.foldl pyInsert []

/-- Python `s |= set(ys)` on task sets: adds each element of
`set(ys)` whose uid is not already present, so on a uid collision the
element of `s` (the left, `self` side) is kept. -/
def pySetUnion (xs ys : List Task) : List Task :=
  (pySet ys).foldl pyInsert xs

/-- `threads/thread.py` lines 51-67, `Thread.__ior__`.  Returns the
mutated `self` paired with the method's Python return value: the body
ends without a `return` statement, so the value handed back to
`new_thread |= other` is `None`. -/
def Thread.ior (self other : Thread) : Except PyErr (Thread × Option Thread) :=
  if self.name ≠ other.name then
    .error (.typeError "cannot find union: threads are not the same")
  else
    .ok ({ self with tasks := pySetUnion (pySet self.tasks) (pySet other.tasks) },
         none)

/-- `threads/thread.py` lines 34-49, `Thread.__or__`: builds
`new_thread` sharing `self`'s task list, executes
`new_thread |= other` - which rebinds `new_thread` to the value
returned by `__ior__` - and returns `new_thread`. -/
def Thread.or (self other : Thread) : Except PyErr (Option Thread) := do
  let new_thread : Thread :=
    { name := self.name, default_importance := self.default_importance,
      tasks := self.tasks }
  let (_mutated, ret) ← new_thread.ior other
  .ok ret

/-- `threads/thread.py` lines 103-105, `Thread.add_task`: an
unconditional append, with no duplicate check of any kind. -/
def Thread.add_task (self : Thread) (task : Task) : Thread :=
  { self with tasks := self.tasks ++ [task] }

/-- `threads/thread.py` lines 69-81, `Thread.to_json`. -/
def Thread.to_json (self : Thread) : JVal :=
  .jobj [("name", .jstr self.name),
         ("default_importance", .jint self.default_importance),
         ("tasks", .jarr (self.tasks.map Task.to_json))]

/-- The dispatch on the serialized `type` entry inlined in
`Thread.from_json` (`threads/thread.py` lines 92-99).  The `event`
and `assignment` branches call the variant decoder, whose failure
propagates; they can never produce a value (see `Event.from_json` and
`Assignment.from_json`). -/
def Thread.decode_task (tj : JVal) : Except PyErr Task :=
  let typ := match tj with | .jobj d => jget d "type" | _ => none
  match typ with
  | some (.jstr "event") =>
      match Event.from_json tj with
      | .error er => .error er
      | .ok _ => .error (.typeError "unreachable: Event.from_json always raises")
  | some (.jstr "assignment") =>
      match Assignment.from_json tj with
      | .error er => .error er
      | .ok _ => .error (.typeError
          "unreachable: Assignment.from_json always raises")
  | _ => Task.from_json tj

/-- `threads/thread.py` lines 83-101, `Thread.from_json`. -/
def Thread.from_json (j : JVal) : Except PyErr Thread :=
  match j with
  | .jobj d => do
      let name ← match jget d "name" with
        | some (.jstr s) => .ok s
        | _ => .error (.keyError "name")
      let di ← match jget d "default_importance" with
        | some (.jint i) => .ok i
        | _ => .error (.keyError "default_importance")
      let items := match jget d "tasks" with
        | some (.jarr xs) => xs
        | _ => []
      let tasks ← items.foldlM (fun acc tj => do
        let t ← Thread.decode_task tj
        pure (acc ++ [t])) ([] : List Task)
      .ok { name := name, default_importance := di, tasks := tasks }
  | _ => .error (.typeError "model: thread json must be an object")

end Threads

namespace Timemap

/-- `timemap/time.py` lines 99-188, class `AllocatedTimeChunk` (the
identical logic also appears in `time/time.py` lines 25-47).
`__init__` sets `_task_allocated = None` and `key = None`;
`task_allocated` holds the uid string of the owning task. -/
structure AllocatedTimeChunk where
  start_time : Int
  duration : Int
  task_allocated : Option String
  key : Option Int
  deriving Repr, DecidableEq

/-- `timemap/time.py` lines 162-181, `AllocatedTimeChunk.set_task_assigned`:
raises `KeyError` when a key is already set and differs from the one
presented, then assigns `_task_allocated`.  The method never assigns
`self.key`, so the key set at construction (`None`) is what every later
call compares against. -/
def AllocatedTimeChunk.set_task_assigned (c : AllocatedTimeChunk)
    (task_allocated : String) (key : Int) :
    AllocatedTimeChunk × Option PyErr :=
  match c.key with
  | some k =>
      if k ≠ key then
        (c, some (.keyError "Task key does not match. "))
      else
        ({ c with task_allocated := some task_allocated }, none)
  | none => ({ c with task_allocated := some task_allocated }, none)

/-- `timemap/time.py` lines 183-188, `get_task_assigned`. -/
def AllocatedTimeChunk.get_task_assigned (c : AllocatedTimeChunk) :
    Option String :=
  c.task_allocated

end Timemap

namespace Managers

/-- An element of the Python lists `threads_past` / `threads_future`
built by `TaskManager._filter_tasks` (`managers.py` lines 72-98): a
`Thread` object, or a reference to the accumulating list itself -
lines 95-96 execute `threads_past.append(threads_past)` and
`threads_future.append(threads_future)`, appending the list being
built (a self-reference) instead of the per-thread partitions
`thread_past` / `thread_future` constructed by the loop body. -/
inductive PyListElem where
  | thr (t : Threads.Thread)
  | accRef
  deriving Repr, DecidableEq

/-- The per-thread partition built (and then never appended) by the
loop body of `_filter_tasks` (`managers.py` lines 84-93): two fresh
threads of the same name and default importance, the tasks split by
`task.is_done()`. -/
def filter_one (thread : Threads.Thread) (now : Int) :
    Threads.Thread × Threads.Thread :=
  ({ name := thread.name, default_importance := thread.default_importance,
     tasks := thread.tasks.filter (fun t => t.is_done now) },
   { name := thread.name, default_importance := thread.default_importance,
     tasks := thread.tasks.filter (fun t => !t.is_done now) })

/-- `managers.py` lines 72-98, `TaskManager._filter_tasks`: returns
`(threads_past, threads_future)`.  Per the source's lines 95-96 each
loop iteration appends the accumulating list itself (`accRef`), not
the computed partitions, which are discarded. -/
def filter_tasks (threads : List Threads.Thread) (now : Int) :
    List PyListElem × List PyListElem :=
  threads.foldl (fun acc thread =>
    let _partitions := filter_one thread now
    (acc.1 ++ [PyListElem.accRef], acc.2 ++ [PyListElem.accRef]))
    ([], [])

/-- The on-disk state: one JSON record per file name, for each of
`ROOT_DIRECTORY/threads/past` and `ROOT_DIRECTORY/threads/future`. -/
structure Store where
  past : List (String × JVal)
  future : List (String × JVal)

/-- Write a record at a file name, overwriting an existing one
(`open(file_path, 'w')` + `json.dump`). -/
def storePut (store : List (String × JVal)) (k : String) (v : JVal) :
    List (String × JVal) :=
  if store.any (fun p => p.1 == k) then
    store.map (fun p => if p.1 == k then (k, v) else p)
  else
    store ++ [(k, v)]

/-- `managers.py` lines 100-115, `TaskManager._append_to_thread_file`:
`open(file_path, 'r+')` raises `FileNotFoundError` when no past record
exists yet; otherwise the old thread is decoded and
`old_thread |= thread` executes `Thread.__ior__` - whose missing
`return` rebinds `old_thread` to `None`, so the subsequent
`json.dump(old_thread.to_json(), f)` raises an `AttributeError`. -/
def append_to_thread_file (store : List (String × JVal)) (file_name : String)
    (thread : Threads.Thread) : Except PyErr (List (String × JVal)) :=
  match jget store file_name with
  | none => .error (.fileNotFound file_name)
  | some j => do
      let old_thread ← Threads.Thread.from_json j
      let (_mutated, _ret) ← old_thread.ior thread
      .error (.attributeError "NoneType object has no attribute to_json")

/-- `managers.py` lines 117-127, `TaskManager._overwrite_thread_file`. -/
def overwrite_thread_file (store : List (String × JVal)) (file_name : String)
    (thread : Threads.Thread) : List (String × JVal) :=
  storePut store file_name thread.to_json

/-- `managers.py` lines 47-70, class `TaskManager`: the in-memory
thread collection (the `tasks` dictionary is never used). -/
structure TaskManager where
  threads : List Threads.Thread

/-- `managers.py` lines 139-154, `TaskManager.save_state`: filters,
then for each element of `threads_past` builds
`"{0}.json".format(thread.name)` - an `AttributeError` when the
element is the self-referential list appended by `_filter_tasks` -
and appends to the past file; then likewise overwrites the future
files. -/
def TaskManager.save_state (m : TaskManager) (store : Store) (now : Int) :
    Except PyErr Store := do
  let (threads_past, threads_future) := filter_tasks m.threads now
  let past ← threads_past.foldlM (fun st el =>
    match el with
    | .accRef => .error (.attributeError "list object has no attribute name")
    | .thr t => append_to_thread_file st (t.name ++ ".json") t) store.past
  let future ← threads_future.foldlM (fun st el =>
    match el with
    | .accRef => .error (.attributeError "list object has no attribute name")
    | .thr t => .ok (overwrite_thread_file st (t.name ++ ".json") t))
    store.future
  .ok { past := past, future := future }

/-- `managers.py` lines 156-165, `TaskManager.load_state`: discards
the in-memory collection and reads every future-directory record. -/
def TaskManager.load_state (store : Store) :
    Except PyErr (List Threads.Thread) :=
  store.future.foldlM (fun acc p => do
    let t ← Threads.Thread.from_json p.2
    pure (acc ++ [t])) []

/-- `managers.py` lines 167-174, `TaskManager.refresh_state`:
`save_state` then `load_state`. -/
def TaskManager.refresh_state (m : TaskManager) (store : Store) (now : Int) :
    Except PyErr (TaskManager × Store) := do
  let store2 ← m.save_state store now
  let threads2 ← TaskManager.load_state store2
  .ok ({ threads := threads2 }, store2)

end Managers

namespace ThreadMid

/-- `thread/task.py` lines 22-59, class `Task` of the middle snapshot
(repeat data inline as `repeating`/`period`). -/
structure Task where
  uid : Nat
  name : String
  start_time : Option Int
  end_time : Option Int
  importance : ℚ
  repeating : Bool
  period : Option Int
  partial_completion : Bool
  max_divisions : Int
  deriving Repr, DecidableEq

/-- `thread/task.py` lines 160-170, the `importance` property setter
of the middle snapshot: the accepted range is `0 <= v < 10` - the
upper bound is exclusive. -/
def Task.set_importance (t : Task) (new_importance : ℚ) :
    Task × Option PyErr :=
  if 0 ≤ new_importance ∧ new_importance < 10 then
    ({ t with importance := new_importance }, none)
  else
    (t, some (.exc "Invalid importance for task. "))

/-- `thread/task.py` lines 257-298, class `Assignment` of the middle
snapshot: carries a single `deadline` instant and an
`expected_duration`. -/
structure Assignment where
  uid : Nat
  name : String
  start_time : Option Int
  end_time : Option Int
  importance : ℚ
  repeating : Bool
  period : Option Int
  partial_completion : Bool
  max_divisions : Int
  deadline : Int
  expected_duration : Option Int
  deriving Repr, DecidableEq

/-- `thread/task.py` lines 367-386, `Assignment.change_time`:
`super().change_time` (the base logic of lines 138-154), then - when
`end_time` is set - `expected_duration = end_time - start_time`, then
the deadline check `start_time + expected_duration > deadline`, whose
violation prints a single `WARNING` line and nothing else.  The result
is the assignment after the call, the exception raised (if any), and
the number of warning lines printed. -/
def Assignment.change_time (a : Assignment) (new_start_time : Int)
    (new_end_time : Option Int) : Assignment × Option PyErr × Nat :=
  let tail : Assignment → Assignment × Option PyErr × Nat := fun a1 =>
    let a2 := match a1.end_time, a1.start_time with
      | some e, some s => { a1 with expected_duration := some (e - s) }
      | _, _ => a1
    match a2.start_time, a2.expected_duration with
    | some s, some dur =>
        if s + dur > a2.deadline then (a2, none, 1) else (a2, none, 0)
    | _, _ =>
        -- `self.start_time + self.expected_duration` with a `None`
        -- operand raises a TypeError
        (a2, some (.typeError "unsupported operand type(s) for +"), 0)
  match new_end_time with
  | some e =>
      if new_start_time > e then
        (a, some (.exc "Invalid time range for task. "), 0)
      else
        tail { a with start_time := some new_start_time, end_time := some e }
  | none =>
      match a.end_time, a.start_time with
      | some oldEnd, some oldStart =>
          tail { a with start_time := some new_start_time,
                        end_time := some (new_start_time + (oldEnd - oldStart)) }
      | some _, none =>
          (a, some (.typeError "unsupported operand type(s) for -"), 0)
      | none, _ =>
          tail { a with start_time := some new_start_time, end_time := none }

end ThreadMid

namespace TaskOld

/-- `task.py` lines 6-33, class `Task` of the oldest snapshot. -/
structure Task where
  name : String
  start_time : Option Int
  end_time : Option Int
  importance : ℚ
  deriving Repr, DecidableEq

/-- `task.py` lines 53-62, `Task.set_importance` of the oldest
snapshot: the accepted range is `v >= 0 and v < 10` - the upper bound
is exclusive. -/
def Task.set_importance (t : Task) (new_importance : ℚ) :
    Task × Option PyErr :=
  if new_importance ≥ 0 ∧ new_importance < 10 then
    ({ t with importance := new_importance }, none)
  else
    (t, some (.exc "Invalid importance for task. "))

end TaskOld

/-! ### Concrete inputs used by the witnesses and counterexamples -/

/-- A pending task of thread "Work" whose `end_time` (50) is in the
past relative to the reference instant 100. -/
def taskA : Threads.Task :=
  { uid := 1, name := "A", start_time := some 10, end_time := some 50,
    importance := 5, partial_completion := false, max_divisions := -1,
    thread_name := some "Work", completed := false }

/-- A pending task of thread "Work" whose `end_time` (200) is in the
future relative to the reference instant 100. -/
def taskB : Threads.Task :=
  { uid := 2, name := "B", start_time := some 150, end_time := some 200,
    importance := 5, partial_completion := false, max_divisions := -1,
    thread_name := some "Work", completed := false }

/-- The thread "Work" holding `taskA` and `taskB`. -/
def workThread : Threads.Thread :=
  { name := "Work", default_importance := 5, tasks := [taskA, taskB] }

/-- A task manager holding the single in-memory thread "Work". -/
def mgr0 : Managers.TaskManager := { threads := [workThread] }

/-- An empty backing store (no past or future records on disk). -/
def store0 : Managers.Store := { past := [], future := [] }

/-- A freshly constructed allocatable chunk: no owner, no key. -/
def chunk0 : Timemap.AllocatedTimeChunk :=
  { start_time := 0, duration := 900, task_allocated := none, key := none }

/-- `chunk0` after the first allocation to `"taskA"`: the owner is
set but `key` is still `None`, because `set_task_assigned` never
stores the key it was given. -/
def chunk1 : Timemap.AllocatedTimeChunk :=
  { chunk0 with task_allocated := some "taskA" }

/-- A completed base task, both times set. -/
def c3_task : Threads.Task :=
  { uid := 7, name := "write report", start_time := some 100,
    end_time := some 200, importance := 5, partial_completion := false,
    max_divisions := -1, thread_name := some "Work", completed := true }

/-- A non-repeating event whose `repeat` attribute holds an
`EventRepeat` object (so that `to_json` succeeds - with the default
plain `False` it raises, see `Threads.Event.to_json`). -/
def c3_event : Threads.Event :=
  { uid := 8, name := "standup",
    repeat_obj := some { repeating := false, period := none,
                         start_time := none, end_time := none,
                         appointments := [] },
    start_time_attr := some 100, end_time_attr := some 200,
    importance := 5, partial_completion := false, max_divisions := -1,
    thread_name := none, completed := false, appointments_attr := none }

/-- A non-repeating assignment: not completed, no `end_time`, one
entry (the instant 50) in its deadlines list. -/
def c4_assignment : Threads.Assignment :=
  { uid := 3, name := "homework", repeat_obj := none,
    start_time_attr := none, end_time_attr := none, importance := 5,
    partial_completion := false, max_divisions := -1, thread_name := none,
    completed := false, deadlines_attr := [50], expected_duration := some 3600 }

/-- A thread whose name differs from `workThread`'s. -/
def playThread : Threads.Thread :=
  { name := "Play", default_importance := 5, tasks := [] }

/-- A base task with both times set, used to exercise `change_time`. -/
def c6_task : Threads.Task :=
  { uid := 4, name := "w", start_time := some 10, end_time := some 30,
    importance := 5, partial_completion := false, max_divisions := -1,
    thread_name := none, completed := false }

/-- A task of the oldest snapshot with the default importance 5. -/
def c7_task_old : TaskOld.Task :=
  { name := "t", start_time := none, end_time := none, importance := 5 }

/-- A task of the middle snapshot with the default importance 5. -/
def c7_task_mid : ThreadMid.Task :=
  { uid := 5, name := "t", start_time := none, end_time := none,
    importance := 5, repeating := false, period := none,
    partial_completion := false, max_divisions := -1 }

/-- An assignment of the middle snapshot with deadline 3. -/
def c8_assignment : ThreadMid.Assignment :=
  { uid := 6, name := "essay", start_time := none, end_time := none,
    importance := 5, repeating := false, period := none,
    partial_completion := false, max_divisions := -1,
    deadline := 3, expected_duration := some 1 }

/-- A repeating event: period 70, first period starting at instant 30. -/
def c9_event : Threads.Event :=
  { uid := 9, name := "gym",
    repeat_obj := some { repeating := true, period := some 70,
                         start_time := some 30, end_time := some 1000,
                         appointments := [] },
    start_time_attr := none, end_time_attr := none, importance := 5,
    partial_completion := false, max_divisions := -1, thread_name := none,
    completed := false, appointments_attr := none }

/-- An event with no start time anywhere (`start_time` property `None`). -/
def c9_event_nostart : Threads.Event :=
  { uid := 10, name := "tbd", repeat_obj := none, start_time_attr := none,
    end_time_attr := none, importance := 5, partial_completion := false,
    max_divisions := -1, thread_name := none, completed := false,
    appointments_attr := none }

/-- A repeating assignment: period 70, first period starting at 30. -/
def c9_assignment : Threads.Assignment :=
  { uid := 11, name := "reading",
    repeat_obj := some { repeating := true, period := some 70,
                         start_time := some 30, end_time := some 1000,
                         deadlines := [] },
    start_time_attr := none, end_time_attr := none, importance := 5,
    partial_completion := false, max_divisions := -1, thread_name := none,
    completed := false, deadlines_attr := [], expected_duration := some 60 }

/-- An assignment with no start time anywhere. -/
def c9_assignment_nostart : Threads.Assignment :=
  { uid := 12, name := "todo", repeat_obj := none, start_time_attr := none,
    end_time_attr := none, importance := 5, partial_completion := false,
    max_divisions := -1, thread_name := none, completed := false,
    deadlines_attr := [], expected_duration := none }

/-- Two distinct tasks sharing uid 21. -/
def dupTask1 : Threads.Task :=
  { uid := 21, name := "first", start_time := none, end_time := none,
    importance := 5, partial_completion := false, max_divisions := -1,
    thread_name := none, completed := false }

/-- see `dupTask1`. -/
def dupTask2 : Threads.Task :=
  { uid := 21, name := "second", start_time := none, end_time := none,
    importance := 7, partial_completion := false, max_divisions := -1,
    thread_name := none, completed := false }

/-! ### Helper lemmas -/

/-- Inserting into a Python task set preserves "at most one task of
each uid". -/
theorem countP_pyInsert_le (acc : List Threads.Task) (x : Threads.Task)
    (u : Nat) (h : acc.countP (fun y => y.uid == u) ≤ 1) :
    (Threads.pyInsert acc x).countP (fun y => y.uid == u) ≤ 1 := by
  unfold Threads.pyInsert
  by_cases hx : (acc.any (fun y => y.uid == x.uid)) = true
  · rw [if_pos hx]; exact h
  · rw [if_neg hx, List.countP_append]
    by_cases hu : (x.uid == u) = true
    · have hxu : x.uid = u := by simpa using hu
      have hall : ∀ z ∈ acc, ¬ z.uid = x.uid := by
        simpa [List.any_eq_true] using hx
      have hzero : acc.countP (fun y => y.uid == u) = 0 := by
        rw [List.countP_eq_zero]
        intro y hy hcontra
        have hyu : y.uid = u := by simpa using hcontra
        exact hall y hy (hyu.trans hxu.symm)
      rw [hzero]
      simp [List.countP_cons, hu]
    · have hone : List.countP (fun y => y.uid == u) [x] = 0 := by
        simp [List.countP_cons, hu]
      rw [hone]
      simpa using h

/-- Folding Python set insertion over any list preserves "at most one
task of each uid". -/
theorem countP_foldl_pyInsert_le (xs : List Threads.Task)
    (acc : List Threads.Task) (u : Nat)
    (h : acc.countP (fun y => y.uid == u) ≤ 1) :
    ((xs.foldl Threads.pyInsert acc).countP (fun y => y.uid == u)) ≤ 1 := by
  induction xs generalizing acc with
  | nil => simpa using h
  | cons x xs ih =>
      simp only [List.foldl_cons]
      exact ih _ (countP_pyInsert_le acc x u h)

/-! ### Claim theorems -/

/-- C1.  The claim says that after `refresh_state()` the expired task
A of thread "Work" moves to the past store while the pending task B
survives in memory and in the future store.  On the code, `is_done`
does classify A as past and B as pending, but `_filter_tasks`
(`managers.py` lines 95-96) appends the accumulating lists themselves
instead of the per-thread partitions, so the past/future lists contain
no `Thread` at all, and `save_state` raises an `AttributeError` on
`thread.name`: `refresh_state` aborts, no task is moved anywhere. -/
theorem c1_refresh_state_crashes :
    Threads.Task.is_done taskA 100 = true ∧
    Threads.Task.is_done taskB 100 = false ∧
    Managers.filter_tasks mgr0.threads 100 =
      ([Managers.PyListElem.accRef], [Managers.PyListElem.accRef]) ∧
    Managers.TaskManager.refresh_state mgr0 store0 100 =
      .error (.attributeError "list object has no attribute name") :=
  ⟨rfl, rfl, rfl, rfl⟩

/-- C2.  The claim says a second `allocate` presenting a key different
from the first one fails with `KeyMismatch` and leaves the first owner
in place.  On the code, `set_task_assigned` never stores the key it is
given, so `self.key` is still `None` at the second call: allocating
`chunk0` to `"taskA"` with key 1 succeeds, and re-allocating to
`"taskB"` with the different key 2 also succeeds and replaces the
owner. -/
theorem c2_second_allocation_succeeds :
    Timemap.AllocatedTimeChunk.set_task_assigned chunk0 "taskA" 1 =
      (chunk1, none) ∧
    chunk1.task_allocated = some "taskA" ∧
    chunk1.key = none ∧
    Timemap.AllocatedTimeChunk.set_task_assigned chunk1 "taskB" 2 =
      ({ chunk1 with task_allocated := some "taskB" }, none) :=
  ⟨rfl, rfl, rfl, rfl⟩

/-- C3.  The claim says decoding the persisted JSON of any task yields
a field-wise equal task of the same variant.  On the code: `to_json`
omits the `completed` field, so the completed task `c3_task` decodes
to the same task with `completed = false`; and decoding an event
record (`Thread.from_json` dispatching on `type = "event"` to
`Event.from_json`) raises a `TypeError` on every input, so no Event
ever decodes back to an Event. -/
theorem c3_roundtrip_fails :
    Threads.Task.from_json (Threads.Task.to_json c3_task) =
      .ok { c3_task with completed := false } ∧
    c3_task.completed = true ∧
    (Threads.Event.to_json c3_event >>= Threads.Event.from_json) =
      .error (.typeError
        "super(type, obj): obj must be an instance or subtype of type") ∧
    (Threads.Event.to_json c3_event >>= Threads.Thread.decode_task) =
      .error (.typeError
        "super(type, obj): obj must be an instance or subtype of type") :=
  ⟨rfl, rfl, rfl, rfl⟩

/-- C5.  The claim says `union(T, T)` equals `T` and same-name union
returns a new `Thread`.  On the code, `Thread.__ior__` has no `return`
statement, so `new_thread |= other` inside `__or__` rebinds
`new_thread` to `None` and `__or__` returns `None` - never a `Thread`.
The mismatched-name half of the claim does hold: `union` on different
names raises (a `TypeError` in the source) and creates no thread. -/
theorem c5_union_returns_none :
    Threads.Thread.or workThread workThread = .ok none ∧
    Threads.Thread.or workThread playThread =
      .error (.typeError "cannot find union: threads are not the same") :=
  ⟨rfl, rfl⟩

/-- C4.  The claim says `is_done` is `completed OR terminal timestamp
strictly past`, with the terminal timestamp being `end_time` for a
plain task and the deadline for an assignment.  The plain-task half
holds (first conjunct).  The assignment half fails on the code:
`Assignment.is_done` reads `end_time`, not the deadlines - the
assignment `c4_assignment` has a deadline (50) strictly before the
instant 100 and is not completed, yet `is_done` returns `false`. -/
theorem c4_is_done_ignores_deadline :
    (∀ (t : Threads.Task) (now : Int),
        Threads.Task.is_done t now = true ↔
          t.completed = true ∨ ∃ e, t.end_time = some e ∧ e < now) ∧
    Threads.Assignment.deadlines c4_assignment = [50] ∧
    (50 : Int) < 100 ∧
    c4_assignment.completed = false ∧
    Threads.Assignment.is_done c4_assignment 100 = false := by
  refine ⟨?_, rfl, by decide, rfl, rfl⟩
  intro t now
  unfold Threads.Task.is_done
  cases h : t.end_time with
  | none => simp
  | some e => by_cases he : e < now <;> simp [he]

/-- C6.  `change_time` with `new_start <= new_end` sets both fields
exactly; with `new_start > new_end` it raises the invalid-time-range
exception before any assignment, leaving both fields unchanged; and
with `new_end` omitted on a task that has both times set, the old
duration is preserved. -/
theorem c6_change_time_spec (t : Threads.Task) (s e : Int) :
    (s ≤ e → Threads.Task.change_time t s (some e) =
       ({ t with start_time := some s, end_time := some e }, none)) ∧
    (e < s → Threads.Task.change_time t s (some e) =
       (t, some (.exc "Invalid time range for task. "))) ∧
    (∀ os oe, t.start_time = some os → t.end_time = some oe →
       Threads.Task.change_time t s none =
         ({ t with start_time := some s,
                   end_time := some (s + (oe - os)) }, none)) := by
  refine ⟨?_, ?_, ?_⟩
  · intro h
    simp [Threads.Task.change_time, not_lt.mpr h]
  · intro h
    simp [Threads.Task.change_time, h]
  · intro os oe h1 h2
    simp [Threads.Task.change_time, h1, h2]

/-- Witness for C6: the three branches of `c6_change_time_spec`
evaluated on `c6_task` (whose times are 10 and 30). -/
theorem c6_change_time_spec_witness :
    ((1 : Int) ≤ 2 ∧
     Threads.Task.change_time c6_task 1 (some 2) =
       ({ c6_task with start_time := some 1, end_time := some 2 }, none)) ∧
    ((2 : Int) < 5 ∧
     Threads.Task.change_time c6_task 5 (some 2) =
       (c6_task, some (.exc "Invalid time range for task. "))) ∧
    (c6_task.start_time = some 10 ∧ c6_task.end_time = some 30 ∧
     Threads.Task.change_time c6_task 100 none =
       ({ c6_task with start_time := some 100,
                       end_time := some (100 + (30 - 10)) }, none)) :=
  ⟨⟨by decide, (c6_change_time_spec c6_task 1 2).1 (by decide)⟩,
   ⟨by decide, (c6_change_time_spec c6_task 5 2).2.1 (by decide)⟩,
   ⟨rfl, rfl, (c6_change_time_spec c6_task 100 0).2.2 10 30 rfl rfl⟩⟩

/-- C7 counterexample.  The claim says every `v` with
`0 <= v <= 10` - both bounds inclusive - is accepted by
`set_importance`.  In the `src/task.py` snapshot (cited by the claim)
the guard is `v >= 0 and v < 10`, so the in-range value `v = 10` is
rejected and the old importance is retained. -/
theorem c7_ten_rejected_by_old_setter :
    TaskOld.Task.set_importance c7_task_old 10 =
      (c7_task_old, some (.exc "Invalid importance for task. ")) ∧
    c7_task_old.importance = 5 :=
  ⟨rfl, rfl⟩

/-- C7 as amended.  The `threads/task.py` importance setter accepts
exactly `0 <= v <= 10` (inclusive) and otherwise raises, retaining the
old value; in the earlier snapshots (`task.py` `set_importance`,
`thread/task.py` importance setter) the upper bound is exclusive:
`v = 10` is also rejected. -/
theorem c7_importance_bounds (v : ℚ) :
    (∀ t : Threads.Task,
       (0 ≤ v → v ≤ 10 →
          Threads.Task.set_importance t v = ({ t with importance := v }, none)) ∧
       (v < 0 ∨ 10 < v →
          Threads.Task.set_importance t v =
            (t, some (.exc "Invalid importance for task. ")))) ∧
    (∀ t : TaskOld.Task,
       (0 ≤ v → v < 10 →
          TaskOld.Task.set_importance t v = ({ t with importance := v }, none)) ∧
       (v < 0 ∨ 10 ≤ v →
          TaskOld.Task.set_importance t v =
            (t, some (.exc "Invalid importance for task. ")))) ∧
    (∀ t : ThreadMid.Task,
       (0 ≤ v → v < 10 →
          ThreadMid.Task.set_importance t v = ({ t with importance := v }, none)) ∧
       (v < 0 ∨ 10 ≤ v →
          ThreadMid.Task.set_importance t v =
            (t, some (.exc "Invalid importance for task. ")))) := by
  refine ⟨fun t => ⟨?_, ?_⟩, fun t => ⟨?_, ?_⟩, fun t => ⟨?_, ?_⟩⟩
  · intro h0 h1; simp [Threads.Task.set_importance, h0, h1]
  · intro h
    have hn : ¬ (0 ≤ v ∧ v ≤ 10) := by
      rcases h with h | h
      · exact fun hc => absurd hc.1 (not_le.mpr h)
      · exact fun hc => absurd hc.2 (not_le.mpr h)
    simp [Threads.Task.set_importance, hn]
  · intro h0 h1; simp [TaskOld.Task.set_importance, h0, h1]
  · intro h
    have hn : ¬ (v ≥ 0 ∧ v < 10) := by
      rcases h with h | h
      · exact fun hc => absurd hc.1 (not_le.mpr h)
      · exact fun hc => absurd hc.2 (not_lt.mpr h)
    simp [TaskOld.Task.set_importance, hn]
  · intro h0 h1; simp [ThreadMid.Task.set_importance, h0, h1]
  · intro h
    have hn : ¬ (0 ≤ v ∧ v < 10) := by
      rcases h with h | h
      · exact fun hc => absurd hc.1 (not_le.mpr h)
      · exact fun hc => absurd hc.2 (not_lt.mpr h)
    simp [ThreadMid.Task.set_importance, hn]

/-- Witness for C7: at `v = 10` the current setter accepts (both
bounds inclusive) while the two earlier snapshots reject; at `v = 11`
the current setter rejects. -/
theorem c7_importance_bounds_witness :
    ((0 : ℚ) ≤ 10 ∧ (10 : ℚ) ≤ 10 ∧
     Threads.Task.set_importance c6_task 10 =
       ({ c6_task with importance := 10 }, none)) ∧
    ((10 : ℚ) ≤ 10 ∧
     TaskOld.Task.set_importance c7_task_old 10 =
       (c7_task_old, some (.exc "Invalid importance for task. "))) ∧
    ((10 : ℚ) ≤ 10 ∧
     ThreadMid.Task.set_importance c7_task_mid 10 =
       (c7_task_mid, some (.exc "Invalid importance for task. "))) ∧
    ((10 : ℚ) < 11 ∧
     Threads.Task.set_importance c6_task 11 =
       (c6_task, some (.exc "Invalid importance for task. "))) :=
  ⟨⟨by decide, by decide,
    ((c7_importance_bounds 10).1 c6_task).1 (by decide) (by decide)⟩,
   ⟨by decide,
    ((c7_importance_bounds 10).2.1 c7_task_old).2 (Or.inr (by decide))⟩,
   ⟨by decide,
    ((c7_importance_bounds 10).2.2 c7_task_mid).2 (Or.inr (by decide))⟩,
   ⟨by decide,
    ((c7_importance_bounds 11).1 c6_task).2 (Or.inr (by decide))⟩⟩

/-- C8.  `Assignment.change_time` (middle snapshot, the only snapshot
defining it) with `start + duration` past the deadline still applies
both times, recomputes `expected_duration = end_time - start_time`,
prints exactly one deadline warning, and raises nothing. -/
theorem c8_deadline_warning (a : ThreadMid.Assignment) (s dur : Int)
    (h0 : 0 ≤ dur) (h1 : a.deadline < s + dur) :
    ThreadMid.Assignment.change_time a s (some (s + dur)) =
      ({ a with start_time := some s, end_time := some (s + dur),
                expected_duration := some dur }, none, 1) := by
  have hng : ¬ (s > s + dur) := by omega
  have hd : s + dur - s = dur := by omega
  have hcond : s + (s + dur - s) > a.deadline := by omega
  simp [ThreadMid.Assignment.change_time, hng, hcond, hd]
  exact h1

/-- Witness for C8: `c8_assignment` (deadline 3) moved to the window
`[0, 5]`. -/
theorem c8_deadline_warning_witness :
    (0 : Int) ≤ 5 ∧ c8_assignment.deadline < 0 + 5 ∧
    ThreadMid.Assignment.change_time c8_assignment 0 (some (0 + 5)) =
      ({ c8_assignment with start_time := some 0, end_time := some (0 + 5),
                            expected_duration := some 5 }, none, 1) :=
  ⟨by decide, by decide,
   c8_deadline_warning c8_assignment 0 5 (by decide) (by decide)⟩

/-- C9.  Occurrences on repeating tasks: an appointment (resp.
deadline) strictly later than `start_time + period` is rejected with
the out-of-period exception and nothing is added; one at or before
`start_time + period` is appended; and on a task whose `start_time`
is unset any occurrence is rejected with the no-start-time
exception. -/
theorem c9_add_occurrence_spec :
    (∀ (e : Threads.Event) (r : Threads.EventRepeat) (p st : Int)
       (chunk : Threads.TimeChunk),
       e.repeat_obj = some r → r.repeating = true →
       r.period = some p → r.start_time = some st →
       ((st + p < chunk.start_time →
          Threads.Event.add_appointment e chunk =
            (e, some (.exc "Invalid appointment: time not within period"))) ∧
        (chunk.start_time ≤ st + p →
          Threads.Event.add_appointment e chunk =
            ({ e with repeat_obj := some ({ r with
                appointments := r.appointments ++ [chunk] }) },
             none)))) ∧
    (∀ (e : Threads.Event) (chunk : Threads.TimeChunk),
       Threads.Event.start_time e = none →
       Threads.Event.add_appointment e chunk =
         (e, some (.exc "Invalid appointment: task start time not set"))) ∧
    (∀ (a : Threads.Assignment) (r : Threads.AssignmentRepeat) (p st dl : Int),
       a.repeat_obj = some r → r.repeating = true →
       r.period = some p → r.start_time = some st →
       ((st + p < dl →
          Threads.Assignment.add_deadline a dl =
            (a, some (.exc "Invalid deadline: time not within period"))) ∧
        (dl ≤ st + p →
          Threads.Assignment.add_deadline a dl =
            ({ a with repeat_obj := some ({ r with
                deadlines := r.deadlines ++ [dl] }) },
             none)))) ∧
    (∀ (a : Threads.Assignment) (dl : Int),
       Threads.Assignment.start_time a = none →
       Threads.Assignment.add_deadline a dl =
         (a, some (.exc "Invalid deadline: task start time not set"))) := by
  refine ⟨?_, ?_, ?_, ?_⟩
  · intro e r p st chunk h1 h2 h3 h4
    constructor
    · intro hgt
      simp [Threads.Event.add_appointment, Threads.Event.start_time,
            h1, h2, h3, h4, hgt]
    · intro hle
      simp [Threads.Event.add_appointment, Threads.Event.start_time,
            h1, h2, h3, h4, not_lt.mpr hle]
  · intro e chunk h
    simp [Threads.Event.add_appointment, h]
  · intro a r p st dl h1 h2 h3 h4
    constructor
    · intro hgt
      simp [Threads.Assignment.add_deadline, Threads.Assignment.start_time,
            h1, h2, h3, h4, hgt]
    · intro hle
      simp [Threads.Assignment.add_deadline, Threads.Assignment.start_time,
            h1, h2, h3, h4, not_lt.mpr hle]
  · intro a dl h
    simp [Threads.Assignment.add_deadline, h]

/-- Witness for C9: the repeating event and assignment with period 70
starting at 30 (occurrences at 101 rejected, at 100 appended), and
the start-less event and assignment (always rejected). -/
theorem c9_add_occurrence_spec_witness :
    ((30 : Int) + 70 < 101 ∧
     Threads.Event.add_appointment c9_event
         { start_time := 101, duration := 15 } =
       (c9_event, some (.exc "Invalid appointment: time not within period"))) ∧
    ((100 : Int) ≤ 30 + 70 ∧
     Threads.Event.add_appointment c9_event
         { start_time := 100, duration := 15 } =
       ({ c9_event with repeat_obj := some { repeating := true,
                                             period := some 70,
                                             start_time := some 30,
                                             end_time := some 1000,
                                             appointments := [{ start_time := 100, duration := 15 }] } },
        none)) ∧
    ((30 : Int) + 70 < 101 ∧
     Threads.Assignment.add_deadline c9_assignment 101 =
       (c9_assignment, some (.exc "Invalid deadline: time not within period"))) ∧
    ((100 : Int) ≤ 30 + 70 ∧
     Threads.Assignment.add_deadline c9_assignment 100 =
       ({ c9_assignment with repeat_obj := some { repeating := true,
                                                  period := some 70,
                                                  start_time := some 30,
                                                  end_time := some 1000,
                                                  deadlines := [100] } },
        none)) ∧
    (Threads.Event.start_time c9_event_nostart = none ∧
     Threads.Event.add_appointment c9_event_nostart
         { start_time := 100, duration := 15 } =
       (c9_event_nostart,
        some (.exc "Invalid appointment: task start time not set"))) ∧
    (Threads.Assignment.start_time c9_assignment_nostart = none ∧
     Threads.Assignment.add_deadline c9_assignment_nostart 40 =
       (c9_assignment_nostart,
        some (.exc "Invalid deadline: task start time not set"))) :=
  ⟨⟨by decide,
    (c9_add_occurrence_spec.1 c9_event _ 70 30
        { start_time := 101, duration := 15 } rfl rfl rfl rfl).1 (by decide)⟩,
   ⟨by decide,
    (c9_add_occurrence_spec.1 c9_event _ 70 30
        { start_time := 100, duration := 15 } rfl rfl rfl rfl).2 (by decide)⟩,
   ⟨by decide,
    (c9_add_occurrence_spec.2.2.1 c9_assignment _ 70 30 101
        rfl rfl rfl rfl).1 (by decide)⟩,
   ⟨by decide,
    (c9_add_occurrence_spec.2.2.1 c9_assignment _ 70 30 100
        rfl rfl rfl rfl).2 (by decide)⟩,
   ⟨rfl, c9_add_occurrence_spec.2.1 c9_event_nostart
        { start_time := 100, duration := 15 } rfl⟩,
   ⟨rfl, c9_add_occurrence_spec.2.2.2 c9_assignment_nostart 40 rfl⟩⟩

/-- C10.  `add_task` appends unconditionally - even a task whose uid
is already present - so a thread's list can hold two entries of equal
uid; and the conversion to a Python set performed by `__ior__` (union)
is what restores at-most-one-task-per-uid. -/
theorem c10_add_task_appends_duplicates :
    (∀ (th : Threads.Thread) (t : Threads.Task),
        (Threads.Thread.add_task th t).tasks = th.tasks ++ [t]) ∧
    (∀ (th : Threads.Thread) (t1 t2 : Threads.Task), t1.uid = t2.uid →
        2 ≤ (((Threads.Thread.add_task (Threads.Thread.add_task th t1)
                t2).tasks).countP (fun x => x.uid == t1.uid))) ∧
    (∀ (a b : Threads.Thread) (u : Nat),
        (Threads.pySetUnion (Threads.pySet a.tasks)
          (Threads.pySet b.tasks)).countP (fun x => x.uid == u) ≤ 1) := by
  refine ⟨fun th t => rfl, ?_, ?_⟩
  · intro th t1 t2 hEq
    simp [Threads.Thread.add_task, List.countP_append, List.countP_cons, hEq]
  · intro a b u
    unfold Threads.pySetUnion
    refine countP_foldl_pyInsert_le _ _ _ ?_
    unfold Threads.pySet
    exact countP_foldl_pyInsert_le _ _ _ (by simp)

/-- Witness for C10: a thread given `dupTask1` and `dupTask2` (equal
uid 21) holds both; the set conversion keeps one. -/
theorem c10_add_task_appends_duplicates_witness :
    dupTask1.uid = dupTask2.uid ∧
    2 ≤ (((Threads.Thread.add_task (Threads.Thread.add_task
            { name := "D", default_importance := 5, tasks := [] } dupTask1)
            dupTask2).tasks).countP (fun x => x.uid == dupTask1.uid)) ∧
    (Threads.pySetUnion
        (Threads.pySet ({ name := "D", default_importance := 5,
                          tasks := [dupTask1, dupTask2] } : Threads.Thread).tasks)
        (Threads.pySet ({ name := "D", default_importance := 5,
                          tasks := [dupTask2] } : Threads.Thread).tasks)).countP
      (fun x => x.uid == 21) ≤ 1 :=
  ⟨rfl,
   c10_add_task_appends_duplicates.2.1
     { name := "D", default_importance := 5, tasks := [] } dupTask1 dupTask2 rfl,
   c10_add_task_appends_duplicates.2.2
     { name := "D", default_importance := 5, tasks := [dupTask1, dupTask2] }
     { name := "D", default_importance := 5, tasks := [dupTask2] } 21⟩
